import Mathlib

/-!
Verification of the outbound-redis host bindings
(`crates/factor-outbound-redis/src/host.rs`).

The development shallowly embeds the host file: the recursive reply
flattener (`RedisResults::from_redis_value`), the connection table and
the `InstanceState` operations of the modern (`v2`) surface, and the
legacy (`v1`) compatibility shim built on the `delegate!` macro.
External collaborators (allow-list gate, address parsing, transport
connection, command transport) are passed in explicitly as `Except`
values, exactly mirroring which Rust call sites can fail and how each
failure is mapped.
-/

deriving instance DecidableEq for Except

/-- The untyped reply tree of the redis wire protocol (`redis::Value`),
with exactly the variants matched by `from_redis_value`. -/
inductive Value where
  | Nil : Value
  | Okay : Value
  | Int (v : Int) : Value
  | Data (bytes : List Nat) : Value
  | Bulk (bulk : List Value) : Value
  | Status (message : String) : Value

/-- The flat typed result (`v2::RedisResult` of `spin_world`). -/
inductive RedisResult where
  | Int64 (v : Int) : RedisResult
  | Binary (b : List Nat) : RedisResult
  | Status (s : String) : RedisResult
deriving DecidableEq, Repr

/-- A generic command argument (`v2::RedisParameter`). -/
inductive RedisParameter where
  | Int64 (v : Int) : RedisParameter
  | Binary (b : List Nat) : RedisParameter
deriving DecidableEq, Repr

/-- The modern error taxonomy (`v2::Error`). -/
inductive Error where
  | InvalidAddress : Error
  | TooManyConnections : Error
  | TypeError : Error
  | Other (msg : String) : Error
deriving DecidableEq, Repr

/-- The legacy error type (`v1::Error`): a single undifferentiated variant. -/
inductive V1Error where
  | Error : V1Error
deriving DecidableEq, Repr

/-- The kind carried by a transport error (`redis::ErrorKind`), reduced to
the one kind the host discriminates on (`TypeError`) versus all others. -/
inductive RedisErrorKind where
  | TypeError : RedisErrorKind
  | OtherKind : RedisErrorKind
deriving DecidableEq, Repr

/-- A transport-level error (`redis::RedisError`): a kind plus the
display string `e.to_string()`. -/
structure RedisError where
  kind : RedisErrorKind
  msg : String
deriving DecidableEq, Repr

/-- `e.to_string()` for a transport error. -/
def redisErrDisplay (e : RedisError) : String := e.msg

/-- Modelled from the spec: the `Display` rendering of the modern error
(the `impl` lives in the `spin_world` crate, outside `src/`); per §7 the
underlying message of `Other` is preserved for diagnostics. -/
def errDisplay : Error → String
  | .InvalidAddress => "invalid address"
  | .TooManyConnections => "too many connections"
  | .TypeError => "type error"
  | .Other m => m

/-- `fn other_error(e) -> Error::Other(e.to_string())`, taking the
already-displayed string. -/
def other_error (s : String) : Error := Error.Other s

mutual
/-- The inner recursion of `RedisResults::from_redis_value`:
`fn append(values: &mut Vec<RedisResult>, value: &Value)`, with the
mutable accumulator made explicit. -/
def append (values : List RedisResult) (value : Value) : List RedisResult :=
  match value with
  | .Nil => values
  | .Okay => values
  | .Int v => values ++ [.Int64 v]
  | .Data bytes => values ++ [.Binary bytes]
  | .Bulk bulk => appendBulk values bulk
  | .Status message => values ++ [.Status message]

/-- The `bulk.iter().for_each(...)` loop of the `Value::Bulk` arm of
`append`. -/
def appendBulk (values : List RedisResult) (bulk : List Value) : List RedisResult :=
  match bulk with
  | [] => values
  | v :: rest => appendBulk (append values v) rest
end

/-- `RedisResults::from_redis_value` (the reply flattener): start from an
empty vector and `append` the reply tree. -/
def from_redis_value (value : Value) : List RedisResult := append [] value

mutual
/-- The flattening as the spec states it (for comparison with
`from_redis_value`): a depth-first, left-to-right traversal in which nil
and OK markers contribute nothing, each scalar contributes one result,
and a nested array contributes the concatenation of its elements'
contributions in order. -/
def flattenSpec (value : Value) : List RedisResult :=
  match value with
  | .Nil => []
  | .Okay => []
  | .Int v => [.Int64 v]
  | .Data bytes => [.Binary bytes]
  | .Bulk bulk => flattenSpecList bulk
  | .Status message => [.Status message]

/-- The per-element concatenation of `flattenSpec` over a nested
array's elements, in order. -/
def flattenSpecList (bulk : List Value) : List RedisResult :=
  match bulk with
  | [] => []
  | v :: rest => flattenSpec v ++ flattenSpecList rest
end

/-- An established transport connection, abstracted to an identifier
(the host never inspects it, it only stores and hands it back). -/
abbrev Conn := Nat

/-- Modelled from the spec: the ConnectionTable (`table::Table` of the
`spin-resource-table` crate, outside `src/`): an arena keyed by a fresh
counter, with a capacity bound; `push` stores an entry under a fresh
handle or fails when full, `get` resolves a handle, `remove` deletes the
entry if present and otherwise changes nothing. -/
structure Table (α : Type) where
  capacity : Nat
  nextKey : Nat
  entries : List (Nat × α)
deriving DecidableEq, Repr

/-- `Table::push`: fails (returns `none`) when the table already holds
`capacity` entries, otherwise stores the value under the fresh key. -/
def Table.push {α : Type} (t : Table α) (a : α) : Option (Nat × Table α) :=
  if t.entries.length < t.capacity then
    some (t.nextKey, ⟨t.capacity, t.nextKey + 1, (t.nextKey, a) :: t.entries⟩)
  else
    none

/-- `Table::get_mut`: resolve a handle to its entry. -/
def Table.get {α : Type} (t : Table α) (k : Nat) : Option α :=
  t.entries.lookup k

/-- `Table::remove`: delete the entry for a handle (no effect when the
handle is unknown). -/
def Table.remove {α : Type} (t : Table α) (k : Nat) : Table α :=
  ⟨t.capacity, t.nextKey, t.entries.filter (fun p => p.1 != k)⟩

/-- `InstanceState`: the per-instance state holding the connection
table. (The allow-list handle is a collaborator; its answers enter
through `Env`.) -/
structure InstanceState where
  connections : Table Conn
deriving DecidableEq, Repr

/-- The collaborator outcomes one `open`/legacy call can observe:
the allow-list gate (`is_address_allowed`, which can itself fail),
address parsing (`redis::Client::open`) and transport connection
(`get_async_connection`), each with its error display string. -/
structure Env where
  gate : Except String Bool
  parse : Except String Unit
  connect : Except String Conn
deriving Repr

/-- `InstanceState::establish_connection`: parse failure maps to
`InvalidAddress`, connection failure to `Other` via `other_error`, and a
full table to `TooManyConnections`; success pushes the connection and
returns its fresh handle.  The state is returned alongside. -/
def establish_connection (st : InstanceState) (env : Env) :
    Except Error Nat × InstanceState :=
  match env.parse with
  | .error _ => (.error .InvalidAddress, st)
  | .ok _ =>
    match env.connect with
    | .error e => (.error (other_error e), st)
    | .ok conn =>
      match st.connections.push conn with
      | none => (.error .TooManyConnections, st)
      | some (h, t) => (.ok h, ⟨t⟩)

/-- `InstanceState::get_conn`: resolve a handle, failing with
`Other("could not find connection for resource")` when unknown. -/
def get_conn (st : InstanceState) (h : Nat) : Except Error Conn :=
  match st.connections.get h with
  | some c => .ok c
  | none => .error (.Other "could not find connection for resource")

/-- `v2::HostConnection::open` (named `openConn` since `open` is a Lean
keyword): a gate-check failure maps to `Other`, a gate denial to
`InvalidAddress`, then `establish_connection` runs. -/
def openConn (st : InstanceState) (env : Env) :
    Except Error Nat × InstanceState :=
  match env.gate with
  | .error e => (.error (.Other e), st)
  | .ok false => (.error .InvalidAddress, st)
  | .ok true => establish_connection st env

/-- `v2::HostConnection::publish`: resolve the handle (wrapping the
resolution error through `other_error`), then run the transport. -/
def publish (st : InstanceState) (h : Nat) (transport : Except RedisError Unit) :
    Except Error Unit × InstanceState :=
  match get_conn st h with
  | .error e => (.error (other_error (errDisplay e)), st)
  | .ok _ =>
    match transport with
    | .error e => (.error (other_error (redisErrDisplay e)), st)
    | .ok _ => (.ok (), st)

/-- `v2::HostConnection::get`: the transport yields an optional byte
string (`None` when the key is absent). -/
def get (st : InstanceState) (h : Nat)
    (transport : Except RedisError (Option (List Nat))) :
    Except Error (Option (List Nat)) × InstanceState :=
  match get_conn st h with
  | .error e => (.error (other_error (errDisplay e)), st)
  | .ok _ =>
    match transport with
    | .error e => (.error (other_error (redisErrDisplay e)), st)
    | .ok v => (.ok v, st)

/-- `v2::HostConnection::set`. -/
def set (st : InstanceState) (h : Nat) (transport : Except RedisError Unit) :
    Except Error Unit × InstanceState :=
  match get_conn st h with
  | .error e => (.error (other_error (errDisplay e)), st)
  | .ok _ =>
    match transport with
    | .error e => (.error (other_error (redisErrDisplay e)), st)
    | .ok _ => (.ok (), st)

/-- `v2::HostConnection::incr`: the transport yields the new `i64`. -/
def incr (st : InstanceState) (h : Nat) (transport : Except RedisError Int) :
    Except Error Int × InstanceState :=
  match get_conn st h with
  | .error e => (.error (other_error (errDisplay e)), st)
  | .ok _ =>
    match transport with
    | .error e => (.error (other_error (redisErrDisplay e)), st)
    | .ok v => (.ok v, st)

/-- `v2::HostConnection::del`: the transport yields a `u32` count,
modelled as a `Nat` below `2 ^ 32`. -/
def del (st : InstanceState) (h : Nat) (transport : Except RedisError Nat) :
    Except Error Nat × InstanceState :=
  match get_conn st h with
  | .error e => (.error (other_error (errDisplay e)), st)
  | .ok _ =>
    match transport with
    | .error e => (.error (other_error (redisErrDisplay e)), st)
    | .ok v => (.ok v, st)

/-- `v2::HostConnection::sadd`: the only command that discriminates the
transport error kind, mapping a `TypeError` kind to `Error::TypeError`
and anything else to `Other`. -/
def sadd (st : InstanceState) (h : Nat) (transport : Except RedisError Nat) :
    Except Error Nat × InstanceState :=
  match get_conn st h with
  | .error e => (.error (other_error (errDisplay e)), st)
  | .ok _ =>
    match transport with
    | .error e =>
      if e.kind = RedisErrorKind.TypeError then (.error .TypeError, st)
      else (.error (.Other (redisErrDisplay e)), st)
    | .ok v => (.ok v, st)

/-- `v2::HostConnection::smembers`. -/
def smembers (st : InstanceState) (h : Nat)
    (transport : Except RedisError (List String)) :
    Except Error (List String) × InstanceState :=
  match get_conn st h with
  | .error e => (.error (other_error (errDisplay e)), st)
  | .ok _ =>
    match transport with
    | .error e => (.error (other_error (redisErrDisplay e)), st)
    | .ok v => (.ok v, st)

/-- `v2::HostConnection::srem`. -/
def srem (st : InstanceState) (h : Nat) (transport : Except RedisError Nat) :
    Except Error Nat × InstanceState :=
  match get_conn st h with
  | .error e => (.error (other_error (errDisplay e)), st)
  | .ok _ =>
    match transport with
    | .error e => (.error (other_error (redisErrDisplay e)), st)
    | .ok v => (.ok v, st)

/-- `v2::HostConnection::execute`: the handle-resolution error is
propagated with `?` (no `other_error` wrapping), the named command and
its arguments are sent, and the reply is decoded by
`from_redis_value`. -/
def execute (st : InstanceState) (h : Nat) (command : String)
    (arguments : List RedisParameter) (transport : Except RedisError Value) :
    Except Error (List RedisResult) × InstanceState :=
  match get_conn st h with
  | .error e => (.error e, st)
  | .ok _ =>
    match transport with
    | .error e => (.error (other_error (redisErrDisplay e)), st)
    | .ok v => (.ok (from_redis_value v), st)

/-- `v2::HostConnection::drop`: remove the table entry and return
`Ok(())` unconditionally. -/
def dropConn (st : InstanceState) (h : Nat) :
    Except String Unit × InstanceState :=
  (.ok (), ⟨st.connections.remove h⟩)

/-- The cast `v as i64` applied to a `u32` value (used by the legacy
`del`, `sadd` and `srem`): a `u32` is below `2 ^ 32`, so the cast is
numerically exact; the reduction records the `u32` domain. -/
def u32_as_i64 (v : Nat) : Int := Int.ofNat (v % 2 ^ 32)

/-- The conversion the claim describes (for comparison with
`u32_as_i64`): truncate the count to a narrower signed width of `bits`
bits, reinterpreting the truncated bit pattern as a signed value. -/
def truncateToSigned (bits : Nat) (v : Nat) : Int :=
  if v % 2 ^ bits < 2 ^ (bits - 1) then Int.ofNat (v % 2 ^ bits)
  else Int.ofNat (v % 2 ^ bits) - Int.ofNat (2 ^ bits)

/-- The `delegate!` macro of the legacy shim: check the gate (any gate
failure or denial is `v1::Error::Error`), establish a fresh connection
(any failure is `v1::Error::Error`), run the modern operation on it and
collapse any modern error into `v1::Error::Error`. -/
def delegateCall {β : Type} (st : InstanceState) (env : Env)
    (op : InstanceState → Nat → Except Error β × InstanceState) :
    Except V1Error β × InstanceState :=
  match env.gate with
  | .error _ => (.error .Error, st)
  | .ok false => (.error .Error, st)
  | .ok true =>
    match establish_connection st env with
    | (.error _, st1) => (.error .Error, st1)
    | (.ok h, st1) =>
      match op st1 h with
      | (.error _, st2) => (.error .Error, st2)
      | (.ok v, st2) => (.ok v, st2)

/-- Modelled from the spec: the `Into` conversion between legacy and
modern command arguments (implemented in `spin_world`, outside `src/`);
both sides are the same {int64, binary} tagged union, so the conversion
is the identity on the payload. -/
def v2ParamOfV1 (p : RedisParameter) : RedisParameter := p

/-- Modelled from the spec: the `Into` conversion from modern to legacy
flat results (implemented in `spin_world`, outside `src/`); both sides
are the same {int64, binary, status} tagged union, so the conversion is
the identity on the payload. -/
def v1ResultOfV2 (r : RedisResult) : RedisResult := r

/-- `v1::Host::publish`. -/
def v1_publish (st : InstanceState) (env : Env)
    (transport : Except RedisError Unit) :
    Except V1Error Unit × InstanceState :=
  delegateCall st env (fun s h => publish s h transport)

/-- `v1::Host::get`: the modern optional result is collapsed with
`unwrap_or_default()` into a (possibly empty) byte string. -/
def v1_get (st : InstanceState) (env : Env)
    (transport : Except RedisError (Option (List Nat))) :
    Except V1Error (List Nat) × InstanceState :=
  let r := delegateCall st env (fun s h => get s h transport)
  (r.1.map (fun v => v.getD []), r.2)

/-- `v1::Host::set`. -/
def v1_set (st : InstanceState) (env : Env)
    (transport : Except RedisError Unit) :
    Except V1Error Unit × InstanceState :=
  delegateCall st env (fun s h => set s h transport)

/-- `v1::Host::incr`. -/
def v1_incr (st : InstanceState) (env : Env)
    (transport : Except RedisError Int) :
    Except V1Error Int × InstanceState :=
  delegateCall st env (fun s h => incr s h transport)

/-- `v1::Host::del`: the modern `u32` count is converted with `as i64`. -/
def v1_del (st : InstanceState) (env : Env)
    (transport : Except RedisError Nat) :
    Except V1Error Int × InstanceState :=
  let r := delegateCall st env (fun s h => del s h transport)
  (r.1.map u32_as_i64, r.2)

/-- `v1::Host::sadd`: the modern `u32` count is converted with `as i64`. -/
def v1_sadd (st : InstanceState) (env : Env)
    (transport : Except RedisError Nat) :
    Except V1Error Int × InstanceState :=
  let r := delegateCall st env (fun s h => sadd s h transport)
  (r.1.map u32_as_i64, r.2)

/-- `v1::Host::smembers`. -/
def v1_smembers (st : InstanceState) (env : Env)
    (transport : Except RedisError (List String)) :
    Except V1Error (List String) × InstanceState :=
  delegateCall st env (fun s h => smembers s h transport)

/-- `v1::Host::srem`: the modern `u32` count is converted with `as i64`. -/
def v1_srem (st : InstanceState) (env : Env)
    (transport : Except RedisError Nat) :
    Except V1Error Int × InstanceState :=
  let r := delegateCall st env (fun s h => srem s h transport)
  (r.1.map u32_as_i64, r.2)

/-- `v1::Host::execute`: arguments are converted to the modern
parameter type and results back to the legacy result type. -/
def v1_execute (st : InstanceState) (env : Env) (command : String)
    (arguments : List RedisParameter) (transport : Except RedisError Value) :
    Except V1Error (List RedisResult) × InstanceState :=
  let r := delegateCall st env
    (fun s h => execute s h command (arguments.map v2ParamOfV1) transport)
  (r.1.map (fun v => v.map v1ResultOfV2), r.2)

/-- A sample established connection identifier. -/
def conn0 : Conn := 7

/-- A sample instance state: an empty table of capacity 4. -/
def st0 : InstanceState := ⟨⟨4, 0, []⟩⟩

/-- A sample instance state whose table is full (capacity 1, one live
entry under handle 5). -/
def stFull : InstanceState := ⟨⟨1, 6, [(5, 3)]⟩⟩

/-- A fully successful collaborator environment. -/
def env0 : Env := ⟨.ok true, .ok (), .ok conn0⟩

/-- An environment whose allow-list gate denies the address. -/
def envDeny : Env := ⟨.ok false, .ok (), .ok conn0⟩

/-- An environment whose allow-list check itself fails. -/
def envGateFail : Env := ⟨.error "gate unavailable", .ok (), .ok conn0⟩

/-- An environment where the address fails to parse. -/
def envParseFail : Env := ⟨.ok true, .error "bad address", .ok conn0⟩

/-- An environment where the address parses but the connection fails. -/
def envConnectFail : Env := ⟨.ok true, .ok (), .error "connection refused"⟩

theorem append_flatten_aux (n : Nat) :
    (∀ (value : Value), sizeOf value ≤ n → ∀ values,
        append values value = values ++ flattenSpec value) ∧
    (∀ (bulk : List Value), sizeOf bulk ≤ n → ∀ values,
        appendBulk values bulk = values ++ flattenSpecList bulk) := by
  induction n with
  | zero =>
    constructor
    · intro value hv
      cases value <;> simp at hv
    · intro bulk hb
      cases bulk <;> simp at hb
  | succ n ih =>
    constructor
    · intro value hv values
      cases value with
      | Nil => simp [append, flattenSpec]
      | Okay => simp [append, flattenSpec]
      | Int v => simp [append, flattenSpec]
      | Data b => simp [append, flattenSpec]
      | Status s => simp [append, flattenSpec]
      | Bulk bulk =>
        have hb : sizeOf bulk ≤ n := by
          simp at hv
          omega
        simpa [append, flattenSpec] using ih.2 bulk hb values
    · intro bulk hb values
      cases bulk with
      | nil => simp [appendBulk, flattenSpecList]
      | cons v rest =>
        have h1 : sizeOf v ≤ n := by
          simp at hb
          omega
        have h2 : sizeOf rest ≤ n := by
          simp at hb
          omega
        calc appendBulk values (v :: rest)
            = appendBulk (append values v) rest := by simp [appendBulk]
          _ = append values v ++ flattenSpecList rest := ih.2 rest h2 _
          _ = (values ++ flattenSpec v) ++ flattenSpecList rest := by
              rw [ih.1 v h1 values]
          _ = values ++ flattenSpecList (v :: rest) := by
              simp [flattenSpecList]

theorem append_eq_flatten (values : List RedisResult) (value : Value) :
    append values value = values ++ flattenSpec value :=
  (append_flatten_aux (sizeOf value)).1 value (Nat.le_refl _) values

/-- C1: the reply flattener `from_redis_value` computes exactly the
depth-first, left-to-right flattening in which nil and OK markers
contribute nothing, an integer contributes one `Int64`, a byte string
one `Binary`, a status message one `Status`, and a nested array the
concatenation of its elements' contributions in order; in particular
the reply `[1, [2, nil, "x"], "OK"]` flattens to
`[Int64 1, Int64 2, Binary "x"]`. -/
theorem flattener_is_dfs_flattening :
    (∀ value : Value, from_redis_value value = flattenSpec value) ∧
    from_redis_value
        (.Bulk [.Int 1, .Bulk [.Int 2, .Nil, .Data [120]], .Okay]) =
      [.Int64 1, .Int64 2, .Binary [120]] := by
  constructor
  · intro value
    simpa [from_redis_value] using append_eq_flatten [] value
  · rfl

/-- C8: flattening is idempotent on already-flat input: a reply that is
a single scalar (integer, byte string or status message) flattens to
exactly one `RedisResult` of the matching kind and value. -/
theorem flatten_single_scalar (v : Int) (b : List Nat) (s : String) :
    from_redis_value (.Int v) = [.Int64 v] ∧
    from_redis_value (.Data b) = [.Binary b] ∧
    from_redis_value (.Status s) = [.Status s] := by
  refine ⟨?_, ?_, ?_⟩ <;> simp [from_redis_value, append]

theorem get_def (st : InstanceState) (h : Nat)
    (transport : Except RedisError (Option (List Nat))) :
    get st h transport =
      match get_conn st h with
      | .error e => (.error (other_error (errDisplay e)), st)
      | .ok _ =>
        match transport with
        | .error e => (.error (other_error (redisErrDisplay e)), st)
        | .ok v => (.ok v, st) := rfl

theorem set_def (st : InstanceState) (h : Nat)
    (transport : Except RedisError Unit) :
    set st h transport =
      match get_conn st h with
      | .error e => (.error (other_error (errDisplay e)), st)
      | .ok _ =>
        match transport with
        | .error e => (.error (other_error (redisErrDisplay e)), st)
        | .ok v => (.ok v, st) := rfl

theorem lookup_filter_ne {α : Type} (l : List (Nat × α)) (k : Nat) :
    (l.filter (fun p => p.1 != k)).lookup k = none := by
  induction l with
  | nil => rfl
  | cons p l ih =>
    by_cases hp : p.1 = k
    · simpa [List.filter_cons, hp] using ih
    · have hk : (k == p.1) = false := by
        simp
        exact Ne.symm hp
      simp [List.filter_cons, hp, List.lookup, hk, ih]

theorem filter_ne_idem {α : Type} (l : List (Nat × α)) (k : Nat) :
    (l.filter (fun p => p.1 != k)).filter (fun p => p.1 != k) =
      l.filter (fun p => p.1 != k) := by
  induction l with
  | nil => rfl
  | cons p l ih =>
    by_cases hp : p.1 = k
    · simp [List.filter_cons, hp, ih]
    · simp [List.filter_cons, hp, ih]

theorem Table.get_push {α : Type} {t : Table α} {a : α} {k : Nat} {t' : Table α}
    (h : t.push a = some (k, t')) : t'.get k = some a := by
  unfold Table.push at h
  split at h
  · simp at h
    obtain ⟨hk, ht⟩ := h
    subst hk
    subst ht
    simp [Table.get, List.lookup]
  · simp at h

theorem Table.get_remove_self {α : Type} (t : Table α) (k : Nat) :
    (t.remove k).get k = none := by
  simp [Table.remove, Table.get, lookup_filter_ne]

theorem get_conn_live {st : InstanceState} {h : Nat} {c : Conn}
    (hc : st.connections.get h = some c) : get_conn st h = .ok c := by
  simp [get_conn, hc]

theorem get_conn_dead {st : InstanceState} {h : Nat}
    (hc : st.connections.get h = none) :
    get_conn st h = .error (.Other "could not find connection for resource") := by
  simp [get_conn, hc]

theorem openConn_ok {st st' : InstanceState} {env : Env} {h : Nat}
    (hopen : openConn st env = (.ok h, st')) :
    ∃ c, env.connect = .ok c ∧ st'.connections.get h = some c := by
  cases hg : env.gate with
  | error s => simp [openConn, hg] at hopen
  | ok b =>
    cases b with
    | false => simp [openConn, hg] at hopen
    | true =>
      cases hp : env.parse with
      | error s => simp [openConn, establish_connection, hg, hp] at hopen
      | ok u =>
        cases hc : env.connect with
        | error s =>
          simp [openConn, establish_connection, other_error, hg, hp, hc] at hopen
        | ok c =>
          cases hpush : st.connections.push c with
          | none =>
            simp [openConn, establish_connection, hg, hp, hc, hpush] at hopen
          | some kt =>
            obtain ⟨k, t⟩ := kt
            simp [openConn, establish_connection, hg, hp, hc, hpush] at hopen
            obtain ⟨hk, hst⟩ := hopen
            subst hk
            refine ⟨c, rfl, ?_⟩
            rw [← hst]
            exact Table.get_push hpush

/-- A sample instance state with one live connection under handle 0
(the state produced by a successful `open` on `st0`). -/
def stLive : InstanceState := ⟨⟨4, 1, [(0, conn0)]⟩⟩

/-- C5: a successful `open` yields a handle that resolves to a live
connection until it is closed; after `drop` the handle resolves to the
unknown-handle error, and dropping an already-unknown handle still
returns success and changes nothing. -/
theorem handle_lifecycle (st st' : InstanceState) (env : Env) (h : Nat)
    (hopen : openConn st env = (.ok h, st')) :
    (∃ c, env.connect = .ok c ∧ get_conn st' h = .ok c) ∧
    (dropConn st' h).1 = .ok () ∧
    get_conn (dropConn st' h).2 h =
      .error (.Other "could not find connection for resource") ∧
    (dropConn (dropConn st' h).2 h).1 = .ok () ∧
    (dropConn (dropConn st' h).2 h).2 = (dropConn st' h).2 := by
  obtain ⟨c, hc, hget⟩ := openConn_ok hopen
  refine ⟨⟨c, hc, get_conn_live hget⟩, rfl, ?_, rfl, ?_⟩
  · exact get_conn_dead (by simp [dropConn, Table.get_remove_self])
  · simp [dropConn, Table.remove, filter_ne_idem]

/-- Witness for C5 at the sample state and environment. -/
theorem handle_lifecycle_witness :
    openConn st0 env0 = (.ok 0, stLive) ∧
    ((∃ c, env0.connect = .ok c ∧ get_conn stLive 0 = .ok c) ∧
     (dropConn stLive 0).1 = .ok () ∧
     get_conn (dropConn stLive 0).2 0 =
       .error (.Other "could not find connection for resource") ∧
     (dropConn (dropConn stLive 0).2 0).1 = .ok () ∧
     (dropConn (dropConn stLive 0).2 0).2 = (dropConn stLive 0).2) :=
  ⟨rfl, handle_lifecycle st0 stLive env0 0 rfl⟩

/-- C10: every handle-taking modern operation (publish, get, set, incr,
del, sadd, smembers, srem, execute) returns the connection table
unchanged, whether the transport succeeds or fails and whether or not
the handle is live; so a failed command never invalidates a handle. -/
theorem commands_preserve_table (st : InstanceState) (h : Nat)
    (tP : Except RedisError Unit) (tG : Except RedisError (Option (List Nat)))
    (tS : Except RedisError Unit) (tI : Except RedisError Int)
    (tD : Except RedisError Nat) (tA : Except RedisError Nat)
    (tM : Except RedisError (List String)) (tR : Except RedisError Nat)
    (command : String) (arguments : List RedisParameter)
    (tE : Except RedisError Value) :
    (publish st h tP).2 = st ∧ (get st h tG).2 = st ∧ (set st h tS).2 = st ∧
    (incr st h tI).2 = st ∧ (del st h tD).2 = st ∧ (sadd st h tA).2 = st ∧
    (smembers st h tM).2 = st ∧ (srem st h tR).2 = st ∧
    (execute st h command arguments tE).2 = st := by
  refine ⟨?_, ?_, ?_, ?_, ?_, ?_, ?_, ?_, ?_⟩
  · cases hg : get_conn st h <;> cases tP <;> simp [publish, hg]
  · cases hg : get_conn st h <;> cases tG <;> simp [get_def, hg]
  · cases hg : get_conn st h <;> cases tS <;> simp [set_def, hg]
  · cases hg : get_conn st h <;> cases tI <;> simp [incr, hg]
  · cases hg : get_conn st h <;> cases tD <;> simp [del, hg]
  · cases hg : get_conn st h <;> cases tA <;> simp [sadd, hg] <;> split <;> rfl
  · cases hg : get_conn st h <;> cases tM <;> simp [smembers, hg]
  · cases hg : get_conn st h <;> cases tR <;> simp [srem, hg]
  · cases hg : get_conn st h <;> cases tE <;> simp [execute, hg]

/-- C7: every modern operation other than `open` (publish, get, set,
incr, del, sadd, smembers, srem, execute), called with a handle that
does not reference a live table entry, fails with the generic `Other`
error category; no dedicated handle-not-found error kind reaches the
caller. -/
theorem unknown_handle_is_other (st : InstanceState) (h : Nat)
    (hdead : st.connections.get h = none)
    (tP : Except RedisError Unit) (tG : Except RedisError (Option (List Nat)))
    (tS : Except RedisError Unit) (tI : Except RedisError Int)
    (tD : Except RedisError Nat) (tA : Except RedisError Nat)
    (tM : Except RedisError (List String)) (tR : Except RedisError Nat)
    (command : String) (arguments : List RedisParameter)
    (tE : Except RedisError Value) :
    (∃ m, (publish st h tP).1 = .error (.Other m)) ∧
    (∃ m, (get st h tG).1 = .error (.Other m)) ∧
    (∃ m, (set st h tS).1 = .error (.Other m)) ∧
    (∃ m, (incr st h tI).1 = .error (.Other m)) ∧
    (∃ m, (del st h tD).1 = .error (.Other m)) ∧
    (∃ m, (sadd st h tA).1 = .error (.Other m)) ∧
    (∃ m, (smembers st h tM).1 = .error (.Other m)) ∧
    (∃ m, (srem st h tR).1 = .error (.Other m)) ∧
    (∃ m, (execute st h command arguments tE).1 = .error (.Other m)) := by
  have hg := get_conn_dead hdead
  refine ⟨?_, ?_, ?_, ?_, ?_, ?_, ?_, ?_, ?_⟩
  · exact ⟨"could not find connection for resource",
      by simp [publish, hg, other_error, errDisplay]⟩
  · exact ⟨"could not find connection for resource",
      by simp [get_def, hg, other_error, errDisplay]⟩
  · exact ⟨"could not find connection for resource",
      by simp [set_def, hg, other_error, errDisplay]⟩
  · exact ⟨"could not find connection for resource",
      by simp [incr, hg, other_error, errDisplay]⟩
  · exact ⟨"could not find connection for resource",
      by simp [del, hg, other_error, errDisplay]⟩
  · exact ⟨"could not find connection for resource",
      by simp [sadd, hg, other_error, errDisplay]⟩
  · exact ⟨"could not find connection for resource",
      by simp [smembers, hg, other_error, errDisplay]⟩
  · exact ⟨"could not find connection for resource",
      by simp [srem, hg, other_error, errDisplay]⟩
  · exact ⟨"could not find connection for resource",
      by simp [execute, hg]⟩

/-- Witness for C7 at the empty table and handle 0. -/
theorem unknown_handle_is_other_witness :
    st0.connections.get 0 = none ∧
    ((∃ m, (publish st0 0 (.ok ())).1 = .error (.Other m)) ∧
     (∃ m, (get st0 0 (.ok none)).1 = .error (.Other m)) ∧
     (∃ m, (set st0 0 (.ok ())).1 = .error (.Other m)) ∧
     (∃ m, (incr st0 0 (.ok 1)).1 = .error (.Other m)) ∧
     (∃ m, (del st0 0 (.ok 0)).1 = .error (.Other m)) ∧
     (∃ m, (sadd st0 0 (.ok 0)).1 = .error (.Other m)) ∧
     (∃ m, (smembers st0 0 (.ok [])).1 = .error (.Other m)) ∧
     (∃ m, (srem st0 0 (.ok 0)).1 = .error (.Other m)) ∧
     (∃ m, (execute st0 0 "PING" [] (.ok .Okay)).1 = .error (.Other m))) :=
  ⟨rfl, unknown_handle_is_other st0 0 rfl (.ok ()) (.ok none) (.ok ()) (.ok 1)
    (.ok 0) (.ok 0) (.ok []) (.ok 0) "PING" [] (.ok .Okay)⟩

/-- C4: on a live handle, `sadd` maps a transport error of the
type-mismatch kind to the distinct `TypeError` (never the generic
`Other`), while every other command maps the very same transport error
to the generic `Other` — `sadd` is the one command that discriminates. -/
theorem sadd_discriminates_type_error (st : InstanceState) (h : Nat) (c : Conn)
    (e : RedisError) (command : String) (arguments : List RedisParameter)
    (hlive : st.connections.get h = some c)
    (hkind : e.kind = RedisErrorKind.TypeError) :
    (sadd st h (.error e)).1 = .error .TypeError ∧
    (∀ m, (sadd st h (.error e)).1 ≠ .error (.Other m)) ∧
    (publish st h (.error e)).1 = .error (.Other (redisErrDisplay e)) ∧
    (get st h (.error e)).1 = .error (.Other (redisErrDisplay e)) ∧
    (set st h (.error e)).1 = .error (.Other (redisErrDisplay e)) ∧
    (incr st h (.error e)).1 = .error (.Other (redisErrDisplay e)) ∧
    (del st h (.error e)).1 = .error (.Other (redisErrDisplay e)) ∧
    (smembers st h (.error e)).1 = .error (.Other (redisErrDisplay e)) ∧
    (srem st h (.error e)).1 = .error (.Other (redisErrDisplay e)) ∧
    (execute st h command arguments (.error e)).1 =
      .error (.Other (redisErrDisplay e)) := by
  have hg := get_conn_live hlive
  refine ⟨?_, ?_, ?_, ?_, ?_, ?_, ?_, ?_, ?_, ?_⟩
  · simp [sadd, hg, hkind]
  · simp [sadd, hg, hkind]
  · simp [publish, hg, other_error]
  · simp [get_def, hg, other_error]
  · simp [set_def, hg, other_error]
  · simp [incr, hg, other_error]
  · simp [del, hg, other_error]
  · simp [smembers, hg, other_error]
  · simp [srem, hg, other_error]
  · simp [execute, hg, other_error]

/-- Witness for C4 at a live handle and a WRONGTYPE transport error. -/
theorem sadd_discriminates_type_error_witness :
    stLive.connections.get 0 = some conn0 ∧
    (RedisError.mk RedisErrorKind.TypeError "WRONGTYPE").kind =
      RedisErrorKind.TypeError ∧
    ((sadd stLive 0 (.error ⟨RedisErrorKind.TypeError, "WRONGTYPE"⟩)).1 =
      .error .TypeError ∧
     (∀ m, (sadd stLive 0
        (.error ⟨RedisErrorKind.TypeError, "WRONGTYPE"⟩)).1 ≠
          .error (.Other m)) ∧
     (publish stLive 0 (.error ⟨RedisErrorKind.TypeError, "WRONGTYPE"⟩)).1 =
       .error (.Other (redisErrDisplay ⟨RedisErrorKind.TypeError, "WRONGTYPE"⟩)) ∧
     (get stLive 0 (.error ⟨RedisErrorKind.TypeError, "WRONGTYPE"⟩)).1 =
       .error (.Other (redisErrDisplay ⟨RedisErrorKind.TypeError, "WRONGTYPE"⟩)) ∧
     (set stLive 0 (.error ⟨RedisErrorKind.TypeError, "WRONGTYPE"⟩)).1 =
       .error (.Other (redisErrDisplay ⟨RedisErrorKind.TypeError, "WRONGTYPE"⟩)) ∧
     (incr stLive 0 (.error ⟨RedisErrorKind.TypeError, "WRONGTYPE"⟩)).1 =
       .error (.Other (redisErrDisplay ⟨RedisErrorKind.TypeError, "WRONGTYPE"⟩)) ∧
     (del stLive 0 (.error ⟨RedisErrorKind.TypeError, "WRONGTYPE"⟩)).1 =
       .error (.Other (redisErrDisplay ⟨RedisErrorKind.TypeError, "WRONGTYPE"⟩)) ∧
     (smembers stLive 0 (.error ⟨RedisErrorKind.TypeError, "WRONGTYPE"⟩)).1 =
       .error (.Other (redisErrDisplay ⟨RedisErrorKind.TypeError, "WRONGTYPE"⟩)) ∧
     (srem stLive 0 (.error ⟨RedisErrorKind.TypeError, "WRONGTYPE"⟩)).1 =
       .error (.Other (redisErrDisplay ⟨RedisErrorKind.TypeError, "WRONGTYPE"⟩)) ∧
     (execute stLive 0 "SADD" []
        (.error ⟨RedisErrorKind.TypeError, "WRONGTYPE"⟩)).1 =
       .error (.Other (redisErrDisplay ⟨RedisErrorKind.TypeError, "WRONGTYPE"⟩))) :=
  ⟨rfl, rfl, sadd_discriminates_type_error stLive 0 conn0
    ⟨RedisErrorKind.TypeError, "WRONGTYPE"⟩ "SADD" [] rfl rfl⟩

/-- C3 counterexample: with a permitted, parsable address whose
connection attempt fails, `open` returns the generic `Other` error
carrying the transport message — not `InvalidAddress` as claimed. -/
theorem open_connect_failure_counterexample :
    (openConn st0 envConnectFail).1 = .error (.Other "connection refused") ∧
    (openConn st0 envConnectFail).1 ≠ .error .InvalidAddress := by decide

/-- C3 (amended): `open` fails with `InvalidAddress` exactly when the
gate denies the address or the address fails to parse; a gate-check
failure or a connection failure is mapped to `Other` (carrying the
message), a full table to `TooManyConnections`, and only a successful
parse, permitted address, successful connection and available capacity
yield a handle (bound to the new connection). -/
theorem open_error_mapping (st : InstanceState) (env : Env) :
    (env.gate = .ok false → (openConn st env).1 = .error .InvalidAddress) ∧
    (∀ s, env.gate = .error s → (openConn st env).1 = .error (.Other s)) ∧
    (∀ s, env.gate = .ok true → env.parse = .error s →
      (openConn st env).1 = .error .InvalidAddress) ∧
    (∀ s, env.gate = .ok true → env.parse = .ok () → env.connect = .error s →
      (openConn st env).1 = .error (.Other s)) ∧
    (∀ c, env.gate = .ok true → env.parse = .ok () → env.connect = .ok c →
      ¬ st.connections.entries.length < st.connections.capacity →
      (openConn st env).1 = .error .TooManyConnections) ∧
    (∀ c, env.gate = .ok true → env.parse = .ok () → env.connect = .ok c →
      st.connections.entries.length < st.connections.capacity →
      ∃ h st', openConn st env = (.ok h, st') ∧
        st'.connections.get h = some c) := by
  refine ⟨?_, ?_, ?_, ?_, ?_, ?_⟩
  · intro hg
    simp [openConn, hg]
  · intro s hg
    simp [openConn, hg]
  · intro s hg hp
    simp [openConn, establish_connection, hg, hp]
  · intro s hg hp hc
    simp [openConn, establish_connection, other_error, hg, hp, hc]
  · intro c hg hp hc hcap
    simp [openConn, establish_connection, Table.push, hg, hp, hc, hcap]
  · intro c hg hp hc hcap
    refine ⟨st.connections.nextKey,
      ⟨⟨st.connections.capacity, st.connections.nextKey + 1,
        (st.connections.nextKey, c) :: st.connections.entries⟩⟩, ?_, ?_⟩
    · simp [openConn, establish_connection, Table.push, hg, hp, hc, hcap]
    · simp [Table.get, List.lookup]

/-- Witness for C3's amended mapping: each failure path evaluated at a
concrete environment, plus the success path. -/
theorem open_error_mapping_witness :
    (openConn st0 envDeny).1 = .error .InvalidAddress ∧
    (openConn st0 envGateFail).1 = .error (.Other "gate unavailable") ∧
    (openConn st0 envParseFail).1 = .error .InvalidAddress ∧
    (openConn st0 envConnectFail).1 = .error (.Other "connection refused") ∧
    (openConn stFull env0).1 = .error .TooManyConnections ∧
    (∃ h st', openConn st0 env0 = (.ok h, st') ∧
      st'.connections.get h = some conn0) :=
  ⟨(open_error_mapping st0 envDeny).1 rfl,
   (open_error_mapping st0 envGateFail).2.1 "gate unavailable" rfl,
   (open_error_mapping st0 envParseFail).2.2.1 "bad address" rfl rfl,
   (open_error_mapping st0 envConnectFail).2.2.2.1 "connection refused"
     rfl rfl rfl,
   (open_error_mapping stFull env0).2.2.2.2.1 conn0 rfl rfl rfl (by decide),
   (open_error_mapping st0 env0).2.2.2.2.2 conn0 rfl rfl rfl (by decide)⟩

/-- C2 counterexample: the modern `del` count is unsigned 32-bit and
the legacy result type is signed 64-bit, so `v as i64` widens rather
than narrows; at the maximal count 4294967295 the legacy call returns
4294967295 itself, while the claimed truncation to a narrower signed
(32-bit) width would produce -1. -/
theorem v1_del_truncation_counterexample :
    (v1_del st0 env0 (.ok 4294967295)).1 = .ok (4294967295 : Int) ∧
    truncateToSigned 32 4294967295 = -1 ∧
    (v1_del st0 env0 (.ok 4294967295)).1 ≠
      .ok (truncateToSigned 32 4294967295) := by decide

/-- C2 (amended): legacy `del` converts the modern unsigned 32-bit
count to the legacy signed 64-bit integer with the unchecked cast
`v as i64`, which is widening and value-preserving: every `u32` count —
including counts exceeding the 32-bit signed range — is returned
exactly, neither truncated nor rejected. -/
theorem v1_del_conversion_widens (st : InstanceState) (env : Env) (c : Conn)
    (v : Nat) (hv : v < 2 ^ 32)
    (hg : env.gate = .ok true) (hp : env.parse = .ok ())
    (hc : env.connect = .ok c)
    (hcap : st.connections.entries.length < st.connections.capacity) :
    u32_as_i64 v = Int.ofNat v ∧
    (v1_del st env (.ok v)).1 = .ok (Int.ofNat v) := by
  have hu : u32_as_i64 v = Int.ofNat v := by
    unfold u32_as_i64
    rw [Nat.mod_eq_of_lt hv]
  refine ⟨hu, ?_⟩
  have hpush : st.connections.push c =
      some (st.connections.nextKey,
        ⟨st.connections.capacity, st.connections.nextKey + 1,
          (st.connections.nextKey, c) :: st.connections.entries⟩) := by
    simp [Table.push, hcap]
  have hlook : Table.get
      (⟨st.connections.capacity, st.connections.nextKey + 1,
        (st.connections.nextKey, c) :: st.connections.entries⟩ : Table Conn)
      st.connections.nextKey = some c := by
    simp [Table.get, List.lookup]
  simp [v1_del, delegateCall, establish_connection, del, get_conn,
    Except.map, hg, hp, hc, hpush, hlook, hu]

/-- Witness for C2's amended conversion at the maximal `u32` count. -/
theorem v1_del_conversion_widens_witness :
    (4294967295 < 2 ^ 32 ∧ env0.gate = .ok true ∧ env0.parse = .ok () ∧
     env0.connect = .ok conn0 ∧
     st0.connections.entries.length < st0.connections.capacity) ∧
    (u32_as_i64 4294967295 = Int.ofNat 4294967295 ∧
     (v1_del st0 env0 (.ok 4294967295)).1 = .ok (Int.ofNat 4294967295)) :=
  ⟨⟨by decide, rfl, rfl, rfl, by decide⟩,
   v1_del_conversion_widens st0 env0 conn0 4294967295 (by decide) rfl rfl rfl
     (by decide)⟩

/-- C6: when the allow-list gate denies the address, every legacy
operation fails with the single legacy error `V1Error.Error`, the only
variant the legacy error type has; and every facade-level error after
the gate check — an open failure reported by `establish_connection` or
a failure of the delegated command — collapses to that same single
variant. -/
theorem legacy_error_collapse (st : InstanceState) (env : Env)
    (tP : Except RedisError Unit) (tG : Except RedisError (Option (List Nat)))
    (tS : Except RedisError Unit) (tI : Except RedisError Int)
    (tD tA tR : Except RedisError Nat)
    (tM : Except RedisError (List String))
    (command : String) (arguments : List RedisParameter)
    (tE : Except RedisError Value) :
    (env.gate = .ok false →
      (v1_publish st env tP).1 = .error .Error ∧
      (v1_get st env tG).1 = .error .Error ∧
      (v1_set st env tS).1 = .error .Error ∧
      (v1_incr st env tI).1 = .error .Error ∧
      (v1_del st env tD).1 = .error .Error ∧
      (v1_sadd st env tA).1 = .error .Error ∧
      (v1_smembers st env tM).1 = .error .Error ∧
      (v1_srem st env tR).1 = .error .Error ∧
      (v1_execute st env command arguments tE).1 = .error .Error) ∧
    (∀ {β : Type} (op : InstanceState → Nat → Except Error β × InstanceState)
        (er : Error), env.gate = .ok true →
      (establish_connection st env).1 = .error er →
      (delegateCall st env op).1 = .error .Error) ∧
    (∀ {β : Type} (op : InstanceState → Nat → Except Error β × InstanceState)
        (h : Nat) (st1 st2 : InstanceState) (er : Error),
      env.gate = .ok true → establish_connection st env = (.ok h, st1) →
      op st1 h = (.error er, st2) →
      (delegateCall st env op).1 = .error .Error) := by
  refine ⟨?_, ?_, ?_⟩
  · intro hg
    refine ⟨?_, ?_, ?_, ?_, ?_, ?_, ?_, ?_, ?_⟩ <;>
      simp [v1_publish, v1_get, v1_set, v1_incr, v1_del, v1_sadd,
        v1_smembers, v1_srem, v1_execute, delegateCall, Except.map, hg]
  · intro β op er hg he
    rcases hE : establish_connection st env with ⟨r1, s1⟩
    rw [hE] at he
    simp at he
    subst he
    simp [delegateCall, hg, hE]
  · intro β op h st1 st2 er hg hE hop
    simp [delegateCall, hg, hE, hop]

/-- Witness for C6: the gate-denied, open-failure and command-failure
paths evaluated at concrete environments. -/
theorem legacy_error_collapse_witness :
    ((v1_publish st0 envDeny (.ok ())).1 = .error .Error ∧
     (v1_get st0 envDeny (.ok none)).1 = .error .Error ∧
     (v1_set st0 envDeny (.ok ())).1 = .error .Error ∧
     (v1_incr st0 envDeny (.ok 1)).1 = .error .Error ∧
     (v1_del st0 envDeny (.ok 0)).1 = .error .Error ∧
     (v1_sadd st0 envDeny (.ok 0)).1 = .error .Error ∧
     (v1_smembers st0 envDeny (.ok [])).1 = .error .Error ∧
     (v1_srem st0 envDeny (.ok 0)).1 = .error .Error ∧
     (v1_execute st0 envDeny "PING" [] (.ok .Okay)).1 = .error .Error) ∧
    (delegateCall st0 envParseFail
      (fun s k => publish s k (.ok ()))).1 = .error .Error ∧
    (delegateCall st0 env0
      (fun s k => sadd s k
        (.error ⟨RedisErrorKind.OtherKind, "boom"⟩))).1 = .error .Error :=
  ⟨(legacy_error_collapse st0 envDeny (.ok ()) (.ok none) (.ok ()) (.ok 1)
      (.ok 0) (.ok 0) (.ok 0) (.ok []) "PING" [] (.ok .Okay)).1 rfl,
   (legacy_error_collapse st0 envParseFail (.ok ()) (.ok none) (.ok ())
      (.ok 1) (.ok 0) (.ok 0) (.ok 0) (.ok []) "PING" [] (.ok .Okay)).2.1
     (fun s k => publish s k (.ok ())) Error.InvalidAddress rfl rfl,
   (legacy_error_collapse st0 env0 (.ok ()) (.ok none) (.ok ()) (.ok 1)
      (.ok 0) (.ok 0) (.ok 0) (.ok []) "PING" [] (.ok .Okay)).2.2
     (fun s k => sadd s k (.error ⟨RedisErrorKind.OtherKind, "boom"⟩))
     0 stLive stLive (.Other "boom") rfl rfl rfl⟩

/-- C9: at the legacy surface, `get` on an absent key succeeds with the
empty byte sequence — indistinguishable from a stored empty value
because the modern `Option` result is collapsed with a default — while
the modern `get` distinguishes the absent key (`none`) from the stored
empty value (`some []`). -/
theorem legacy_get_collapses_absent (st : InstanceState) (env : Env)
    (c : Conn) (hg : env.gate = .ok true) (hp : env.parse = .ok ())
    (hc : env.connect = .ok c)
    (hcap : st.connections.entries.length < st.connections.capacity) :
    (v1_get st env (.ok none)).1 = .ok [] ∧
    (v1_get st env (.ok (some []))).1 = .ok [] ∧
    (∀ (st' : InstanceState) (h : Nat) (c' : Conn),
      st'.connections.get h = some c' →
      (get st' h (.ok none)).1 = .ok none ∧
      (get st' h (.ok (some []))).1 = .ok (some []) ∧
      (Except.ok none : Except Error (Option (List Nat))) ≠ .ok (some [])) := by
  have hpush : st.connections.push c =
      some (st.connections.nextKey,
        ⟨st.connections.capacity, st.connections.nextKey + 1,
          (st.connections.nextKey, c) :: st.connections.entries⟩) := by
    simp [Table.push, hcap]
  have hlook : Table.get
      (⟨st.connections.capacity, st.connections.nextKey + 1,
        (st.connections.nextKey, c) :: st.connections.entries⟩ : Table Conn)
      st.connections.nextKey = some c := by
    simp [Table.get, List.lookup]
  refine ⟨?_, ?_, ?_⟩
  · simp [v1_get, delegateCall, establish_connection, get_def, get_conn,
      Except.map, hg, hp, hc, hpush, hlook]
  · simp [v1_get, delegateCall, establish_connection, get_def, get_conn,
      Except.map, hg, hp, hc, hpush, hlook]
  · intro st' h c' hlive
    have hgc := get_conn_live hlive
    refine ⟨?_, ?_, by simp⟩
    · simp [get_def, hgc]
    · simp [get_def, hgc]

/-- Witness for C9 at the sample state and environment. -/
theorem legacy_get_collapses_absent_witness :
    (env0.gate = .ok true ∧ env0.parse = .ok () ∧ env0.connect = .ok conn0 ∧
     st0.connections.entries.length < st0.connections.capacity) ∧
    ((v1_get st0 env0 (.ok none)).1 = .ok [] ∧
     (v1_get st0 env0 (.ok (some []))).1 = .ok [] ∧
     (∀ (st' : InstanceState) (h : Nat) (c' : Conn),
       st'.connections.get h = some c' →
       (get st' h (.ok none)).1 = .ok none ∧
       (get st' h (.ok (some []))).1 = .ok (some []) ∧
       (Except.ok none : Except Error (Option (List Nat))) ≠ .ok (some []))) :=
  ⟨⟨rfl, rfl, rfl, by decide⟩,
   legacy_get_collapses_absent st0 env0 conn0 rfl rfl rfl (by decide)⟩
